import Mathlib

/-!
Formal model of the FISHY marketplace core: the relational schema with its
check constraints and row-level-security policies (database migration file),
the client data-access helpers (src/lib/supabase.ts), and the checkout
fan-out logic (CustomerDashboard handleCheckout).

Modelling conventions:
- identifiers (uuids) are strings; decimal amounts are exact rationals;
  integer columns are integers; timestamps are not modelled (no claim
  mentions them);
- the database is an explicit state record holding the four relevant
  tables as lists of rows, in insertion order;
- row ids assigned by the store are derived deterministically from the
  state (standing in for gen_random_uuid);
- a remote insert can fail; for the order-placement path this is modelled
  by explicit failure flags matching the error branches of the source, and
  the listing insert is additionally gated by the deterministic store-side
  rejections (the fish_listings CHECK constraints and the farmers foreign
  key) plus a failure flag for the transport;
- fallible operations return the post-state together with an Except value,
  so that state changes made before a failure stay observable.
-/

/-- A row of the farmers table (timestamps and password hash omitted). -/
structure FarmerRow where
  id : String
  full_name : String
  company_name : String
  phone : String
  email : String
  country : String
  state : String
  local_government : String
  city : String
  street : String
  id_type : String
  unique_code : String
  is_verified : Bool
deriving Repr, DecidableEq

/-- A row of the fish_listings table. -/
structure FishListingRow where
  id : String
  farmer_id : String
  fish_type : String
  quantity : Int
  price_per_unit : Rat
  description : String
  is_active : Bool
deriving Repr, DecidableEq

/-- A row of the orders table. -/
structure OrderRow where
  id : String
  customer_id : String
  farmer_id : String
  farmer_code : String
  total_amount : Rat
  status : String
deriving Repr, DecidableEq

/-- A row of the order_items table. -/
structure OrderItemRow where
  id : String
  order_id : String
  fish_listing_id : String
  quantity : Int
  unit_price : Rat
  subtotal : Rat
deriving Repr, DecidableEq

/-- The persistent store: the four tables the claims are about. -/
structure DBState where
  farmers : List FarmerRow
  fish_listings : List FishListingRow
  orders : List OrderRow
  order_items : List OrderItemRow
deriving Repr, DecidableEq

/-- CHECK constraints of fish_listings:
fish_type in the enum, quantity > 0, price_per_unit > 0. -/
def fish_listings_check (l : FishListingRow) : Bool :=
  (l.fish_type == "catfish" || l.fish_type == "tilapia" || l.fish_type == "dry_fish")
    && decide (0 < l.quantity) && decide (0 < l.price_per_unit)

/-- CHECK constraints of orders: total_amount > 0, status in the enum. -/
def orders_check (o : OrderRow) : Bool :=
  decide (0 < o.total_amount)
    && (o.status == "pending" || o.status == "confirmed" || o.status == "shipped"
        || o.status == "delivered" || o.status == "cancelled")

/-- CHECK constraints of order_items: quantity > 0, unit_price > 0,
subtotal > 0.  Note that the schema states no constraint relating subtotal
to quantity and unit_price. -/
def order_items_check (it : OrderItemRow) : Bool :=
  decide (0 < it.quantity) && decide (0 < it.unit_price) && decide (0 < it.subtotal)

/-- RLS SELECT visibility for fish_listings, the disjunction of the two
applicable policies: "Anyone can read active fish listings"
(USING is_active = true) and "Farmers can manage own listings"
(FOR ALL, USING farmer_id = auth.uid()). -/
def canSelectListing (uid : String) (l : FishListingRow) : Bool :=
  l.is_active || l.farmer_id == uid

/-- RLS predicate gating UPDATE and DELETE on fish_listings: only the
policy "Farmers can manage own listings" applies (the active-listings
policy is SELECT-only). -/
def canManageListing (uid : String) (l : FishListingRow) : Bool :=
  l.farmer_id == uid

/-- The narrow farmer projection used by the catalog join:
farmers(full_name, company_name, unique_code, city, state). -/
structure FarmerPublic where
  full_name : String
  company_name : String
  unique_code : String
  city : String
  state : String
deriving Repr, DecidableEq

/-- Project a farmer row to the catalog join columns. -/
def farmerPublic (f : FarmerRow) : FarmerPublic :=
  { full_name := f.full_name, company_name := f.company_name,
    unique_code := f.unique_code, city := f.city, state := f.state }

/-- One element of the catalog feed: a listing with its joined farmer
projection (none when the farmer row is absent). -/
structure CatalogEntry where
  listing : FishListingRow
  farmer : Option FarmerPublic
deriving Repr, DecidableEq

/-- getFishListings: select listings with is_active = true (both the query
filter and the RLS visibility apply), joined to the narrow farmer
projection; the farmers join is readable by any authenticated principal
(policy "Anyone can view farmer profiles", USING true). -/
def getFishListings (uid : String) (s : DBState) : List CatalogEntry :=
  ((s.fish_listings.filter (canSelectListing uid)).filter (fun l => l.is_active)).map
    fun l =>
      { listing := l,
        farmer := (s.farmers.find? (fun f => f.id == l.farmer_id)).map farmerPublic }

/-- A direct read of the farmers table by an authenticated principal:
the policy "Anyone can view farmer profiles" (USING true) makes every row
visible, with all of its columns. -/
def directFarmerRead (_uid : String) (s : DBState) : List FarmerRow :=
  s.farmers

/-- getFarmerListings: requires an authenticated user, then selects the
rows with farmer_id = user.id (RLS visibility conjoined with the query
filter). -/
def getFarmerListings (auth : Option String) (s : DBState) :
    Except String (List FishListingRow) :=
  match auth with
  | none => Except.error "User not authenticated"
  | some uid =>
      Except.ok (s.fish_listings.filter
        (fun l => canSelectListing uid l && l.farmer_id == uid))

/-- Input of createFishListing (the caller supplies no farmer_id). -/
structure NewListingData where
  fish_type : String
  quantity : Int
  price_per_unit : Rat
  description : String
deriving Repr, DecidableEq

/-- Fresh id for a listing row, standing in for gen_random_uuid. -/
def freshListingId (s : DBState) : String :=
  "listing" ++ toString s.fish_listings.length

/-- The farmers foreign key of fish_listings.farmer_id: the referenced
farmer row must exist. -/
def farmerExists (s : DBState) (fid : String) : Bool :=
  s.farmers.any (fun f => f.id == fid)

/-- RLS-and-constraint-gated INSERT into fish_listings: the FOR ALL
policy USING clause is applied as the insert check, so a row whose
farmer_id is not the authenticated uid is rejected; an owned row is then
written only if it passes the table CHECK constraints and the farmers
foreign key, otherwise the store rejects it (one error message stands for
the check-constraint and foreign-key error family).  In every rejection
nothing is written. -/
def rlsInsertListing (uid : String) (l : FishListingRow) (s : DBState) :
    DBState × Except String FishListingRow :=
  if l.farmer_id == uid then
    if fish_listings_check l && farmerExists s l.farmer_id then
      ({ s with fish_listings := s.fish_listings ++ [l] }, Except.ok l)
    else
      (s, Except.error "insert violates a table constraint")
  else
    (s, Except.error "new row violates row-level security policy")

/-- The row createFishListing submits: farmer_id forced to the
authenticated id, is_active defaulting to true. -/
def newListingRow (uid : String) (d : NewListingData) (s : DBState) :
    FishListingRow :=
  { id := freshListingId s, farmer_id := uid, fish_type := d.fish_type,
    quantity := d.quantity, price_per_unit := d.price_per_unit,
    description := d.description, is_active := true }

/-- createFishListing: requires an authenticated user, then submits a row
with farmer_id set to the authenticated id; the insert can fail remotely
(the flag) or be rejected by the store, in which case nothing is
written. -/
def createFishListing (auth : Option String) (d : NewListingData)
    (insertFails : Bool) (s : DBState) : DBState × Except String FishListingRow :=
  match auth with
  | none => (s, Except.error "User not authenticated")
  | some uid =>
      if insertFails then (s, Except.error "listing insert failed")
      else rlsInsertListing uid (newListingRow uid d s) s

/-- The partial update payload the dashboard passes to updateFishListing
(a Partial of the listing fields it edits). -/
structure ListingUpdate where
  fish_type : Option String := none
  quantity : Option Int := none
  price_per_unit : Option Rat := none
  description : Option String := none
  is_active : Option Bool := none
deriving Repr, DecidableEq

/-- Apply a partial update to a listing row. -/
def applyListingUpdate (u : ListingUpdate) (l : FishListingRow) : FishListingRow :=
  { l with
    fish_type := u.fish_type.getD l.fish_type,
    quantity := u.quantity.getD l.quantity,
    price_per_unit := u.price_per_unit.getD l.price_per_unit,
    description := u.description.getD l.description,
    is_active := u.is_active.getD l.is_active }

/-- updateFishListing: update().eq(id, id).select().single().  Under RLS
the update touches only rows satisfying the manage policy; .single()
yields an error unless exactly one row came back. -/
def updateFishListing (uid : String) (lid : String) (u : ListingUpdate)
    (s : DBState) : DBState × Except String FishListingRow :=
  let touched := s.fish_listings.filter (fun l => l.id == lid && canManageListing uid l)
  let updated := s.fish_listings.map
    (fun l => if l.id == lid && canManageListing uid l then applyListingUpdate u l else l)
  let s1 : DBState := { s with fish_listings := updated }
  match touched with
  | [l] => (s1, Except.ok (applyListingUpdate u l))
  | _ => (s1, Except.error "JSON object requested, multiple (or no) rows returned")

/-- deleteFishListing: delete().eq(id, id).  Under RLS the delete removes
only rows satisfying the manage policy; rows the principal may not touch
are silently skipped and the call reports success. -/
def deleteFishListing (uid : String) (lid : String) (s : DBState) :
    DBState × Except String Unit :=
  let kept := s.fish_listings.filter (fun l => !(l.id == lid && canManageListing uid l))
  ({ s with fish_listings := kept }, Except.ok ())

/-- One entry of the items array passed to createOrder. -/
structure OrderInsertItem where
  fish_listing_id : String
  quantity : Int
  unit_price : Rat
  subtotal : Rat
deriving Repr, DecidableEq

/-- The orderData argument of createOrder. -/
structure CreateOrderData where
  farmer_id : String
  farmer_code : String
  total_amount : Rat
  items : List OrderInsertItem
deriving Repr, DecidableEq

/-- Fresh id for an order row, standing in for gen_random_uuid. -/
def freshOrderId (s : DBState) : String :=
  "order" ++ toString s.orders.length

/-- createOrder (src/lib/supabase.ts): requires an authenticated user;
inserts the order row (customer_id forced to the authenticated id, status
defaulting to pending); on order-insert failure nothing is written; then
inserts all item rows; on item-insert failure the function throws WITHOUT
removing the already committed order row — the two inserts are separate
statements, not one transaction.  The two Bool flags model the failure of
each remote insert. -/
def createOrder (auth : Option String) (orderData : CreateOrderData)
    (orderInsertFails itemsInsertFails : Bool) (s : DBState) :
    DBState × Except String (OrderRow × List OrderItemRow) :=
  match auth with
  | none => (s, Except.error "User not authenticated")
  | some uid =>
      if orderInsertFails then
        (s, Except.error "order insert failed")
      else
        let order : OrderRow :=
          { id := freshOrderId s, customer_id := uid,
            farmer_id := orderData.farmer_id, farmer_code := orderData.farmer_code,
            total_amount := orderData.total_amount, status := "pending" }
        let s1 : DBState := { s with orders := s.orders ++ [order] }
        if itemsInsertFails then
          (s1, Except.error "order items insert failed")
        else
          let newItems : List OrderItemRow :=
            orderData.items.enum.map fun p =>
              { id := order.id ++ "item" ++ toString p.1, order_id := order.id,
                fish_listing_id := p.2.fish_listing_id, quantity := p.2.quantity,
                unit_price := p.2.unit_price, subtotal := p.2.subtotal }
          ({ s1 with order_items := s1.order_items ++ newItems },
           Except.ok (order, newItems))

/-- A line of the customer cart as handleCheckout consumes it: the listing
id, its owning farmer, the optional joined farmer code, the listing price
and the chosen order quantity. -/
structure CartItem where
  id : String
  farmer_id : String
  farmer_code : Option String
  price_per_unit : Rat
  orderQuantity : Int
deriving Repr, DecidableEq

/-- The per-farmer accumulator built by the grouping reduce. -/
structure FarmerGroup where
  farmer_id : String
  farmer_code : String
  items : List OrderInsertItem
  total : Rat
deriving Repr, DecidableEq

/-- The item record pushed for one cart line:
subtotal is computed as price times quantity. -/
def toInsertItem (it : CartItem) : OrderInsertItem :=
  { fish_listing_id := it.id, quantity := it.orderQuantity,
    unit_price := it.price_per_unit,
    subtotal := it.price_per_unit * (it.orderQuantity : Rat) }

/-- One step of the grouping reduce of handleCheckout: if a group for the
farmer of the line already exists, push the item and add the subtotal to
its total; otherwise start a new group (farmer_code taken from this first
line, an absent join defaulting to the empty string). -/
def addToGroups (groups : List FarmerGroup) (item : CartItem) : List FarmerGroup :=
  let sub : Rat := item.price_per_unit * (item.orderQuantity : Rat)
  let newIt : OrderInsertItem := toInsertItem item
  if groups.any (fun g => g.farmer_id == item.farmer_id) then
    groups.map fun g =>
      if g.farmer_id == item.farmer_id then
        { g with items := g.items ++ [newIt], total := g.total + sub }
      else g
  else
    groups ++ [{ farmer_id := item.farmer_id,
                 farmer_code := item.farmer_code.getD "",
                 items := [newIt], total := 0 + sub }]

/-- The grouping reduce: partition the cart by farmer_id, in first
occurrence order (JS object keys of uuid strings preserve insertion
order). -/
def ordersByFarmer (cart : List CartItem) : List FarmerGroup :=
  cart.foldl addToGroups []

/-- getTotalAmount: the whole-cart total shown in the success alert. -/
def getTotalAmount (cart : List CartItem) : Rat :=
  cart.foldl (fun t it => t + it.price_per_unit * (it.orderQuantity : Rat)) 0

/-- The orderData built from one farmer group. -/
def groupToOrderData (g : FarmerGroup) : CreateOrderData :=
  { farmer_id := g.farmer_id, farmer_code := g.farmer_code,
    total_amount := g.total, items := g.items }

/-- The checkout loop: call createOrder for each farmer group in turn;
on the first error stop (the JS loop throws), leaving the state already
written.  The faults list supplies the failure flags per group, defaulting
to no failure.  Returns the post-state, the per-group results of the
completed createOrder calls, and the first error if any. -/
def runGroups (auth : Option String) :
    List FarmerGroup → List (Bool × Bool) → DBState →
    DBState × List (OrderRow × List OrderItemRow) × Option String
  | [], _, s => (s, [], none)
  | g :: gs, faults, s =>
      let fl := faults.headD (false, false)
      match createOrder auth (groupToOrderData g) fl.1 fl.2 s with
      | (s1, Except.error e) => (s1, [], some e)
      | (s1, Except.ok r) =>
          let rest := runGroups auth gs faults.tail s1
          (rest.1, r :: rest.2.1, rest.2.2)

/-- What the checkout reports to the user: either the success alert
carrying the cart total, or the one generic failure alert ("Failed to
process payment. Please try again."), which carries no further
information. -/
inductive CheckoutReport where
  | success (amount : Rat)
  | failure
deriving Repr, DecidableEq

/-- handleCheckout: group the cart by farmer, run createOrder per group,
alert success with the cart total if every group succeeded, otherwise
catch the first error and alert the generic failure message. -/
def handleCheckout (auth : Option String) (cart : List CartItem)
    (faults : List (Bool × Bool)) (s : DBState) : DBState × CheckoutReport :=
  let r := runGroups auth (ordersByFarmer cart) faults s
  match r.2.2 with
  | none => (r.1, CheckoutReport.success (getTotalAmount cart))
  | some _ => (r.1, CheckoutReport.failure)

/-- One draw of the random source used by generate_farmer_code:
d stands for floor(random() * 1000), and a, b, c for the three draws of
floor(random() * 26); the random() contract gives d < 1000 and
a, b, c < 26. -/
structure FarmerRand where
  d : Nat
  a : Nat
  b : Nat
  c : Nat
deriving Repr, DecidableEq

/-- The decimal digit character of n (for n < 10). -/
def digitChar (n : Nat) : Char := Char.ofNat (48 + n)

/-- LPAD(d::text, 3, the zero digit) for d < 1000: the three-digit decimal
rendering of d. -/
def lpad3 (d : Nat) : String :=
  String.mk [digitChar (d / 100 % 10), digitChar (d / 10 % 10), digitChar (d % 10)]

/-- chr(65 + x): an uppercase letter for x < 26. -/
def letterChar (x : Nat) : Char := Char.ofNat (65 + x)

/-- The candidate code built from one random draw:
FSH, three digits, three uppercase letters. -/
def mkCode (r : FarmerRand) : String :=
  "FSH" ++ lpad3 r.d ++ String.mk [letterChar r.a, letterChar r.b, letterChar r.c]

/-- Whether ch is a decimal digit. -/
def isDigitChar (ch : Char) : Bool := 48 ≤ ch.toNat && ch.toNat ≤ 57

/-- Whether ch is an uppercase ASCII letter. -/
def isUpperChar (ch : Char) : Bool := 65 ≤ ch.toNat && ch.toNat ≤ 90

/-- The format the generator produces: FSH followed by three digits and
three uppercase letters. -/
def codeFormat (code : String) : Bool :=
  match code.data with
  | ['F', 'S', 'H', d1, d2, d3, l1, l2, l3] =>
      isDigitChar d1 && isDigitChar d2 && isDigitChar d3 &&
      isUpperChar l1 && isUpperChar l2 && isUpperChar l3
  | _ => false

/-- generate_farmer_code: draw a candidate, return it unless it collides
with an existing code, else retry.  The unbounded LOOP is modelled by
recursion on the list of random draws; none means the stream was exhausted
with every draw colliding (the loop would still be running). -/
def generate_farmer_code : List FarmerRand → List String → Option String
  | [], _ => none
  | r :: rs, existing =>
      let code := mkCode r
      if existing.contains code then generate_farmer_code rs existing
      else some code

/-- The BEFORE INSERT trigger set_farmer_code: if the incoming row has no
unique_code (NULL or the empty string, both modelled as the empty string),
replace it by a generated one; otherwise keep the row as supplied. -/
def set_farmer_code (rands : List FarmerRand) (existing : List String)
    (f : FarmerRow) : Option FarmerRow :=
  if f.unique_code = "" then
    (generate_farmer_code rands existing).map fun c => { f with unique_code := c }
  else some f

/-!
Spec-side characterizations and observation helpers, used only to state
the theorems.  specGroup and specGroups follow the wording of the spec
(partition by farmer, per-group total as a sum over the lines of the
farmer, code from the first line); the grouping theorem compares them with
the source-derived ordersByFarmer.
-/

/-- Insert a key if not yet present (first-occurrence de-duplication). -/
def insKey (acc : List String) (k : String) : List String :=
  if acc.contains k then acc else acc ++ [k]

/-- The distinct farmer ids of a cart, in first-occurrence order. -/
def groupKeys (cart : List CartItem) : List String :=
  cart.foldl (fun acc it => insKey acc it.farmer_id) []

/-- Spec wording, for one farmer: the lines of the cart belonging to the
farmer, the code taken from the first such line, one item per line with
subtotal equal to unit price times quantity, and the total as the sum of
those products. -/
def specGroup (cart : List CartItem) (fid : String) : FarmerGroup :=
  let lines := cart.filter fun it => it.farmer_id == fid
  { farmer_id := fid,
    farmer_code :=
      match cart.find? (fun it => it.farmer_id == fid) with
      | some it => it.farmer_code.getD ""
      | none => "",
    items := lines.map toInsertItem,
    total := (lines.map fun it => it.price_per_unit * (it.orderQuantity : Rat)).sum }

/-- Spec wording: one group per distinct farmer of the cart, in first
occurrence order. -/
def specGroups (cart : List CartItem) : List FarmerGroup :=
  (groupKeys cart).map (specGroup cart)

/-- Observation of one createOrder result, forgetting the store-assigned
ids: customer, farmer, code, total, status, and the item payloads. -/
def orderView (r : OrderRow × List OrderItemRow) :
    String × String × String × Rat × String ×
      List (String × Int × Rat × Rat) :=
  (r.1.customer_id, r.1.farmer_id, r.1.farmer_code, r.1.total_amount, r.1.status,
   r.2.map fun it => (it.fish_listing_id, it.quantity, it.unit_price, it.subtotal))

/-- The observation a farmer group should produce for customer P. -/
def groupView (P : String) (g : FarmerGroup) :
    String × String × String × Rat × String ×
      List (String × Int × Rat × Rat) :=
  (P, g.farmer_id, g.farmer_code, g.total, "pending",
   g.items.map fun it => (it.fish_listing_id, it.quantity, it.unit_price, it.subtotal))

/-- Replace the phone and email of the farmer with the given id, leaving
every other column and every other row unchanged: the second state of the
noninterference statement for contact protection. -/
def setFarmerContact (s : DBState) (fid : String) (phone email : String) : DBState :=
  let redacted := s.farmers.map
    (fun f => if f.id == fid then { f with phone := phone, email := email } else f)
  { s with farmers := redacted }

/-!
Concrete inputs used by the witnesses and counterexamples.
-/

/-- The empty store. -/
def emptyDB : DBState :=
  { farmers := [], fish_listings := [], orders := [], order_items := [] }

/-- The concrete cart of the spec example: two lines of farmer1
(2 at 100, 1 at 50) and one line of farmer2 (3 at 20). -/
def exCart : List CartItem :=
  [ { id := "listingA", farmer_id := "farmer1", farmer_code := some "FSH001AAA",
      price_per_unit := 100, orderQuantity := 2 },
    { id := "listingB", farmer_id := "farmer1", farmer_code := some "FSH001AAA",
      price_per_unit := 50, orderQuantity := 1 },
    { id := "listingC", farmer_id := "farmer2", farmer_code := some "FSH002BBB",
      price_per_unit := 20, orderQuantity := 3 } ]

/-- The createOrder payload of the farmer1 group of the example cart. -/
def exOrderData : CreateOrderData :=
  { farmer_id := "farmer1", farmer_code := "FSH001AAA", total_amount := 250,
    items := [ { fish_listing_id := "listingA", quantity := 2, unit_price := 100, subtotal := 200 },
               { fish_listing_id := "listingB", quantity := 1, unit_price := 50, subtotal := 50 } ] }

/-- An order_items row whose subtotal is NOT quantity times unit price. -/
def exBadItem : OrderItemRow :=
  { id := "item1", order_id := "orderX", fish_listing_id := "listingA",
    quantity := 1, unit_price := 2, subtotal := 5 }

/-- A listing owned by farmer1. -/
def exListing : FishListingRow :=
  { id := "listingA", farmer_id := "farmer1", fish_type := "catfish",
    quantity := 10, price_per_unit := 100, description := "fresh catfish",
    is_active := true }

/-- An inactive listing owned by farmer1. -/
def exInactiveListing : FishListingRow :=
  { id := "listingD", farmer_id := "farmer1", fish_type := "tilapia",
    quantity := 4, price_per_unit := 30, description := "old stock",
    is_active := false }

/-- A store holding the listing of farmer1. -/
def exDB : DBState :=
  { farmers := [], fish_listings := [exListing], orders := [], order_items := [] }

/-- A store holding the inactive listing of farmer1. -/
def exDBInactive : DBState :=
  { farmers := [], fish_listings := [exInactiveListing], orders := [], order_items := [] }

/-- A farmer row arriving with no unique_code supplied. -/
def exFarmerNoCode : FarmerRow :=
  { id := "farmer9", full_name := "Ada", company_name := "Ada Farms",
    phone := "0800", email := "ada.example", country := "NG", state := "Lagos",
    local_government := "Ikeja", city := "Lagos", street := "Main",
    id_type := "nin", unique_code := "", is_verified := false }

/-- A single random draw for the code generator. -/
def exRand : FarmerRand := { d := 123, a := 0, b := 1, c := 2 }

/-- The farmer1 profile row. -/
def exFarmer1 : FarmerRow :=
  { id := "farmer1", full_name := "Bola", company_name := "Bola Fisheries",
    phone := "0801", email := "bola.example", country := "NG", state := "Oyo",
    local_government := "Ibadan", city := "Ibadan", street := "Ring",
    id_type := "nin", unique_code := "FSH001AAA", is_verified := true }

/-- A store holding the farmer1 profile (so the foreign key of a new
listing of farmer1 is satisfiable). -/
def exDBFarmer : DBState :=
  { farmers := [exFarmer1], fish_listings := [], orders := [], order_items := [] }

/-- A valid listing payload. -/
def exNewListing : NewListingData :=
  { fish_type := "catfish", quantity := 5, price_per_unit := 120,
    description := "fresh" }

/-- A listing payload violating the quantity CHECK constraint. -/
def exBadListing : NewListingData :=
  { fish_type := "catfish", quantity := 0, price_per_unit := 120,
    description := "zero quantity" }

/-- The order row created by a successful order insert of createOrder. -/
def mkOrderRow (uid : String) (od : CreateOrderData) (s : DBState) : OrderRow :=
  { id := freshOrderId s, customer_id := uid, farmer_id := od.farmer_id,
    farmer_code := od.farmer_code, total_amount := od.total_amount,
    status := "pending" }

/-- The item rows created by a successful item insert of createOrder. -/
def mkItemRows (od : CreateOrderData) (oid : String) : List OrderItemRow :=
  od.items.enum.map fun p =>
    { id := oid ++ "item" ++ toString p.1, order_id := oid,
      fish_listing_id := p.2.fish_listing_id, quantity := p.2.quantity,
      unit_price := p.2.unit_price, subtotal := p.2.subtotal }

/-- The state after one fully successful group write of the checkout
loop. -/
def commitGroupState (P : String) (g : FarmerGroup) (s : DBState) : DBState :=
  { s with
    orders := s.orders ++ [mkOrderRow P (groupToOrderData g) s],
    order_items := s.order_items ++ mkItemRows (groupToOrderData g) (freshOrderId s) }

/-!
Helper lemmas.
-/

/-- createOrder never touches the farmers or fish_listings tables. -/
lemma createOrder_frame (auth : Option String) (od : CreateOrderData)
    (f1 f2 : Bool) (s : DBState) :
    ((createOrder auth od f1 f2 s).1).fish_listings = s.fish_listings
      ∧ ((createOrder auth od f1 f2 s).1).farmers = s.farmers := by
  cases auth <;> cases f1 <;> cases f2 <;> exact ⟨rfl, rfl⟩

/-- The checkout loop never touches the farmers or fish_listings tables. -/
lemma runGroups_frame (auth : Option String) (groups : List FarmerGroup) :
    ∀ (faults : List (Bool × Bool)) (s : DBState),
    ((runGroups auth groups faults s).1).fish_listings = s.fish_listings
      ∧ ((runGroups auth groups faults s).1).farmers = s.farmers := by
  induction groups with
  | nil => intro faults s; exact ⟨rfl, rfl⟩
  | cons g gs ih =>
      intro faults s
      have hco := createOrder_frame auth (groupToOrderData g)
        (faults.headD (false, false)).1 (faults.headD (false, false)).2 s
      simp only [runGroups]
      rcases h : createOrder auth (groupToOrderData g)
          (faults.headD (false, false)).1 (faults.headD (false, false)).2 s with ⟨s1, e⟩
      rw [h] at hco
      cases e with
      | error e => exact hco
      | ok r =>
          have := ih faults.tail s1
          exact ⟨this.1.trans hco.1, this.2.trans hco.2⟩

/-- C7: order placement never modifies any fish listing row: both the
single-group write (createOrder) and the whole checkout leave the
fish_listings table exactly as it was, for every outcome including the
failure injections. -/
theorem order_placement_preserves_listings :
    (∀ (auth : Option String) (od : CreateOrderData) (f1 f2 : Bool) (s : DBState),
        ((createOrder auth od f1 f2 s).1).fish_listings = s.fish_listings)
    ∧ ∀ (auth : Option String) (cart : List CartItem) (faults : List (Bool × Bool))
        (s : DBState),
        ((handleCheckout auth cart faults s).1).fish_listings = s.fish_listings := by
  constructor
  · intro auth od f1 f2 s
    exact (createOrder_frame auth od f1 f2 s).1
  · intro auth cart faults s
    have hrg := runGroups_frame auth (ordersByFarmer cart) faults s
    unfold handleCheckout
    rcases h : runGroups auth (ordersByFarmer cart) faults s with ⟨s1, res, err⟩
    rw [h] at hrg
    cases err with
    | none => exact hrg.1
    | some e => exact hrg.1

/-- Equation of createFishListing with an authenticated user and no
remote failure. -/
lemma createFishListing_auth_eq (uid : String) (d : NewListingData) (s : DBState) :
    createFishListing (some uid) d false s
      = rlsInsertListing uid (newListingRow uid d s) s := rfl

/-- Equation of createFishListing when the insert fails remotely. -/
lemma createFishListing_fail_eq (uid : String) (d : NewListingData) (s : DBState) :
    createFishListing (some uid) d true s
      = (s, Except.error "listing insert failed") := rfl

/-- C10 counterexample: an authenticated createFishListing whose payload
violates the quantity CHECK constraint writes nothing and surfaces an
error, so the insert does not succeed regardless of the arguments the
caller supplies. -/
theorem createFishListing_invalid_input_cex :
    exBadListing.quantity = 0
    ∧ createFishListing (some "farmer1") exBadListing false exDBFarmer
        = (exDBFarmer, Except.error "insert violates a table constraint") :=
  ⟨rfl, rfl⟩

/-- C10 amended: without an authenticated user, createFishListing,
getFarmerListings and createOrder fail with "User not authenticated" and
write nothing, for every argument and failure injection.  With an
authenticated user the ids are forced: every listing row that gets
written carries farmer_id = the authenticated id, and the write happens
exactly when the insert does not fail remotely and the row passes the
store checks (the fish_listings CHECK constraints and the farmers foreign
key) — otherwise nothing is written and an error is surfaced; createOrder
with no injected failure writes the order with customer_id = the
authenticated id. -/
theorem auth_gating_and_ids_forced_amended :
    (∀ (d : NewListingData) (f1 : Bool) (s : DBState),
        createFishListing none d f1 s = (s, Except.error "User not authenticated"))
    ∧ (∀ s : DBState, getFarmerListings none s = Except.error "User not authenticated")
    ∧ (∀ (od : CreateOrderData) (f1 f2 : Bool) (s : DBState),
        createOrder none od f1 f2 s = (s, Except.error "User not authenticated"))
    ∧ (∀ (uid : String) (d : NewListingData) (f1 : Bool) (s : DBState),
        (∃ l, createFishListing (some uid) d f1 s
            = ({ s with fish_listings := s.fish_listings ++ [l] }, Except.ok l)
          ∧ l.farmer_id = uid)
        ∨ ((createFishListing (some uid) d f1 s).1 = s
          ∧ ∃ e, (createFishListing (some uid) d f1 s).2 = Except.error e))
    ∧ (∀ (uid : String) (d : NewListingData) (s : DBState),
        fish_listings_check (newListingRow uid d s) = true
        → farmerExists s uid = true
        → createFishListing (some uid) d false s
            = ({ s with fish_listings := s.fish_listings ++ [newListingRow uid d s] },
               Except.ok (newListingRow uid d s)))
    ∧ ∀ (uid : String) (od : CreateOrderData) (s : DBState),
        ((createOrder (some uid) od false false s).1).orders
          = s.orders ++
              [{ id := freshOrderId s, customer_id := uid, farmer_id := od.farmer_id,
                 farmer_code := od.farmer_code, total_amount := od.total_amount,
                 status := "pending" }] := by
  have hown : ∀ (uid : String) (d : NewListingData) (s : DBState),
      ((newListingRow uid d s).farmer_id == uid) = true := by
    intro uid d s
    simp [newListingRow]
  refine ⟨fun d f1 s => rfl, fun s => rfl, fun od f1 f2 s => rfl, ?_, ?_, fun uid od s => rfl⟩
  · intro uid d f1 s
    cases f1
    · by_cases hc : (fish_listings_check (newListingRow uid d s)
          && farmerExists s (newListingRow uid d s).farmer_id) = true
      · left
        refine ⟨newListingRow uid d s, ?_, rfl⟩
        rw [createFishListing_auth_eq]
        simp only [rlsInsertListing]
        rw [if_pos (hown uid d s), if_pos hc]
      · right
        constructor
        · rw [createFishListing_auth_eq]
          simp only [rlsInsertListing]
          rw [if_pos (hown uid d s), if_neg hc]
        · refine ⟨"insert violates a table constraint", ?_⟩
          rw [createFishListing_auth_eq]
          simp only [rlsInsertListing]
          rw [if_pos (hown uid d s), if_neg hc]
    · right
      rw [createFishListing_fail_eq]
      exact ⟨rfl, "listing insert failed", rfl⟩
  · intro uid d s h1 h2
    have hfid : (newListingRow uid d s).farmer_id = uid := rfl
    rw [createFishListing_auth_eq]
    simp only [rlsInsertListing]
    rw [if_pos (hown uid d s), if_pos (by rw [hfid, h1, h2]; rfl)]

/-- Witness for auth_gating_and_ids_forced_amended: a valid payload of
farmer1 against a store holding the farmer1 profile. -/
theorem auth_gating_and_ids_forced_amended_witness :
    (fish_listings_check (newListingRow "farmer1" exNewListing exDBFarmer) = true
      ∧ farmerExists exDBFarmer "farmer1" = true)
    ∧ createFishListing (some "farmer1") exNewListing false exDBFarmer
        = ({ exDBFarmer with fish_listings := exDBFarmer.fish_listings
              ++ [newListingRow "farmer1" exNewListing exDBFarmer] },
           Except.ok (newListingRow "farmer1" exNewListing exDBFarmer)) :=
  ⟨⟨rfl, rfl⟩,
   auth_gating_and_ids_forced_amended.2.2.2.2.1 "farmer1" exNewListing exDBFarmer rfl rfl⟩

/-- C2 counterexample: a run of createOrder in which the order insert
succeeds and the item insert fails leaves the order row committed with no
item rows — the all-or-nothing outcome the claim asserts is violated. -/
theorem createOrder_partial_commit_cex :
    ((createOrder (some "cust1") exOrderData false true emptyDB).1).orders.length = 1
    ∧ ((createOrder (some "cust1") exOrderData false true emptyDB).1).order_items = []
    ∧ (createOrder (some "cust1") exOrderData false true emptyDB).2
        = Except.error "order items insert failed" := by
  exact ⟨rfl, rfl, rfl⟩

/-- C2 amended: if the order insert fails nothing is written, but if the
item insert fails after the order insert succeeded, the order row remains
committed (appended to the orders table) while the order_items table is
untouched — the order and its items are two separate inserts, not one
atomic transaction. -/
theorem createOrder_group_atomicity_amended (uid : String) (od : CreateOrderData)
    (f2 : Bool) (s : DBState) :
    (createOrder (some uid) od true f2 s).1 = s
    ∧ (createOrder (some uid) od true f2 s).2 = Except.error "order insert failed"
    ∧ ((createOrder (some uid) od false true s).1).orders
        = s.orders ++ [{ id := freshOrderId s, customer_id := uid,
                         farmer_id := od.farmer_id, farmer_code := od.farmer_code,
                         total_amount := od.total_amount, status := "pending" }]
    ∧ ((createOrder (some uid) od false true s).1).order_items = s.order_items
    ∧ (createOrder (some uid) od false true s).2
        = Except.error "order items insert failed" := by
  exact ⟨rfl, rfl, rfl, rfl, rfl⟩

/-- C4 counterexample: the store-level constraint on order_items accepts a
row whose subtotal is NOT quantity times unit price, so the equality is
not enforced by the store. -/
theorem order_items_constraint_cex :
    order_items_check exBadItem = true
    ∧ exBadItem.subtotal ≠ (exBadItem.quantity : Rat) * exBadItem.unit_price := by
  refine ⟨rfl, ?_⟩
  simp only [exBadItem]
  norm_num

/-- C9 counterexample: a delete attempt by farmer2 on a listing owned by
farmer1 leaves the row in place but reports plain success — no
authorization error (no error at all) is raised. -/
theorem foreign_delete_no_error_cex :
    exListing.farmer_id = "farmer1"
    ∧ exListing ∈ exDB.fish_listings
    ∧ ("farmer2" : String) ≠ "farmer1"
    ∧ deleteFishListing "farmer2" "listingA" exDB = (exDB, Except.ok ()) := by
  refine ⟨rfl, List.mem_singleton.mpr rfl, by decide, rfl⟩

/-- C3 counterexample: with the second farmer group failing after the
first committed, the checkout reports the same generic failure alert as a
run in which nothing committed at all, so the report identifies neither
the committed groups nor the failure detail — partial failure is masked
as total failure. -/
theorem checkout_masks_partial_failure_cex :
    (handleCheckout (some "cust1") exCart [(false, false), (true, false)] emptyDB).2
        = CheckoutReport.failure
    ∧ (handleCheckout (some "cust1") exCart [(true, false), (true, false)] emptyDB).2
        = CheckoutReport.failure
    ∧ ((handleCheckout (some "cust1") exCart [(false, false), (true, false)] emptyDB).1).orders.map
        (fun o => (o.farmer_id, o.total_amount)) = [("farmer1", (250 : Rat))]
    ∧ ((handleCheckout (some "cust1") exCart [(true, false), (true, false)] emptyDB).1).orders
        = [] := by
  refine ⟨rfl, rfl, ?_, rfl⟩
  simp [handleCheckout, runGroups, createOrder, ordersByFarmer, addToGroups, toInsertItem,
    groupToOrderData, exCart, emptyDB, freshOrderId]
  norm_num

/-- On a row the principal does not own, the RLS guard of update and
delete evaluates to false. -/
lemma manage_guard_false (uid lid : String) (s : DBState)
    (hall : ∀ m ∈ s.fish_listings, m.id = lid → m.farmer_id ≠ uid) :
    ∀ m ∈ s.fish_listings, (m.id == lid && canManageListing uid m) = false := by
  intro m hm
  by_cases h1 : m.id = lid
  · have h2 := hall m hm h1
    simp [canManageListing, h1, h2]
  · simp [canManageListing, h1]

/-- C9 amended: an attempt by a principal to create, update or delete a
listing owned by someone else leaves the target rows unchanged in every
case; the create is rejected with a row-level-security error, the update
surfaces only the generic no-row error of the single-row response, and
the delete completes with no error at all (zero rows affected) — no
dedicated authorization error is raised for update or delete. -/
theorem foreign_listing_ops_amended (uid lid : String) (u : ListingUpdate)
    (lnew : FishListingRow) (s : DBState)
    (hall : ∀ m ∈ s.fish_listings, m.id = lid → m.farmer_id ≠ uid)
    (hnew : lnew.farmer_id ≠ uid) :
    rlsInsertListing uid lnew s
        = (s, Except.error "new row violates row-level security policy")
    ∧ (updateFishListing uid lid u s).1 = s
    ∧ (updateFishListing uid lid u s).2
        = Except.error "JSON object requested, multiple (or no) rows returned"
    ∧ deleteFishListing uid lid s = (s, Except.ok ()) := by
  have hg := manage_guard_false uid lid s hall
  have htouched : s.fish_listings.filter
      (fun l => l.id == lid && canManageListing uid l) = [] := by
    rw [List.filter_eq_nil_iff]
    intro m hm
    rw [hg m hm]
    simp
  have hupd : s.fish_listings.map
      (fun l => if l.id == lid && canManageListing uid l
                then applyListingUpdate u l else l) = s.fish_listings := by
    have hpt : ∀ m ∈ s.fish_listings,
        (if m.id == lid && canManageListing uid m
         then applyListingUpdate u m else m) = m := by
      intro m hm
      rw [hg m hm]
      simp
    calc s.fish_listings.map _ = s.fish_listings.map id := List.map_congr_left hpt
      _ = s.fish_listings := List.map_id _
  have hdel : s.fish_listings.filter
      (fun l => !(l.id == lid && canManageListing uid l)) = s.fish_listings := by
    rw [List.filter_eq_self]
    intro m hm
    rw [hg m hm]
    rfl
  have hu : updateFishListing uid lid u s
      = (s, Except.error "JSON object requested, multiple (or no) rows returned") := by
    simp only [updateFishListing]
    rw [htouched, hupd]
  have hd : deleteFishListing uid lid s = (s, Except.ok ()) := by
    simp only [deleteFishListing]
    rw [hdel]
  refine ⟨?_, ?_, ?_, hd⟩
  · simp [rlsInsertListing, hnew]
  · rw [hu]
  · rw [hu]

/-- Witness for foreign_listing_ops_amended at a concrete store. -/
theorem foreign_listing_ops_amended_witness :
    ((∀ m ∈ exDB.fish_listings, m.id = "listingA" → m.farmer_id ≠ "farmer2")
      ∧ ({ exListing with id := "listingZ" } : FishListingRow).farmer_id ≠ "farmer2")
    ∧ rlsInsertListing "farmer2" { exListing with id := "listingZ" } exDB
        = (exDB, Except.error "new row violates row-level security policy")
    ∧ (updateFishListing "farmer2" "listingA" ⟨none, none, none, none, none⟩ exDB).1 = exDB
    ∧ (updateFishListing "farmer2" "listingA" ⟨none, none, none, none, none⟩ exDB).2
        = Except.error "JSON object requested, multiple (or no) rows returned"
    ∧ deleteFishListing "farmer2" "listingA" exDB = (exDB, Except.ok ()) := by
  refine ⟨⟨by decide, by decide⟩, ?_⟩
  exact foreign_listing_ops_amended "farmer2" "listingA" ⟨none, none, none, none, none⟩
    { exListing with id := "listingZ" } exDB (by decide) (by decide)

/-- C6: the catalog read never depends on the phone or email of any
farmer — two stores differing only in the phone and email of one farmer
produce identical catalog output — while a direct read of the farmers
table by any authenticated principal exposes the stored phone and email
of every farmer. -/
theorem catalog_hides_farmer_contact :
    (∀ (s : DBState) (uid fid phone email : String),
        getFishListings uid (setFarmerContact s fid phone email) = getFishListings uid s)
    ∧ ∀ (uid : String) (s : DBState),
        (directFarmerRead uid s).map (fun f => (f.phone, f.email))
          = s.farmers.map (fun f => (f.phone, f.email)) := by
  constructor
  · intro s uid fid phone email
    unfold getFishListings setFarmerContact
    apply List.map_congr_left
    intro l _
    have hfind : (s.farmers.map
        (fun f => if f.id == fid then { f with phone := phone, email := email } else f)).find?
          (fun f => f.id == l.farmer_id)
        = (s.farmers.find? (fun f => f.id == l.farmer_id)).map
            (fun f => if f.id == fid then { f with phone := phone, email := email } else f) := by
      rw [List.find?_map]
      have hfun : ((fun f : FarmerRow => f.id == l.farmer_id) ∘
          fun f => if f.id == fid then { f with phone := phone, email := email } else f)
          = fun f : FarmerRow => f.id == l.farmer_id := by
        funext g
        by_cases hc : g.id = fid <;> simp [Function.comp, hc]
      rw [hfun]
    rw [hfind, Option.map_map]
    have hproj : (farmerPublic ∘
        fun f => if f.id == fid then { f with phone := phone, email := email } else f)
        = farmerPublic := by
      funext g
      by_cases hc : g.id = fid <;> simp [Function.comp, farmerPublic, hc]
    rw [hproj]
  · intro uid s
    rfl

/-- Membership in insKey. -/
lemma mem_insKey {acc : List String} {k k2 : String} :
    k ∈ insKey acc k2 ↔ k ∈ acc ∨ k = k2 := by
  unfold insKey
  by_cases h : acc.contains k2 = true
  · rw [if_pos h]
    have hk2 : k2 ∈ acc := List.elem_iff.mp h
    constructor
    · exact Or.inl
    · rintro (hm | rfl)
      · exact hm
      · exact hk2
  · rw [if_neg h]
    simp [List.mem_append]

/-- Membership in the folded key accumulator. -/
lemma mem_foldl_keys (l : List CartItem) : ∀ (acc : List String) (k : String),
    (k ∈ l.foldl (fun a it => insKey a it.farmer_id) acc)
      ↔ k ∈ acc ∨ ∃ it ∈ l, it.farmer_id = k := by
  induction l with
  | nil => intro acc k; simp
  | cons x xs ih =>
      intro acc k
      rw [List.foldl_cons, ih]
      constructor
      · rintro (hik | ⟨it, hit, rfl⟩)
        · rcases mem_insKey.mp hik with hm | rfl
          · exact Or.inl hm
          · exact Or.inr ⟨x, List.mem_cons_self x xs, rfl⟩
        · exact Or.inr ⟨it, List.mem_cons_of_mem _ hit, rfl⟩
      · rintro (hm | ⟨it, hit, rfl⟩)
        · exact Or.inl (mem_insKey.mpr (Or.inl hm))
        · rcases List.mem_cons.mp hit with rfl | h2
          · exact Or.inl (mem_insKey.mpr (Or.inr rfl))
          · exact Or.inr ⟨it, h2, rfl⟩

/-- The group keys are exactly the farmer ids occurring in the cart. -/
lemma mem_groupKeys {cart : List CartItem} {k : String} :
    k ∈ groupKeys cart ↔ ∃ it ∈ cart, it.farmer_id = k := by
  unfold groupKeys
  rw [mem_foldl_keys]
  simp

/-- insKey preserves Nodup. -/
lemma nodup_insKey {acc : List String} (h : acc.Nodup) (k : String) :
    (insKey acc k).Nodup := by
  unfold insKey
  by_cases hc : acc.contains k = true
  · rw [if_pos hc]; exact h
  · rw [if_neg hc]
    rw [List.nodup_append]
    refine ⟨h, List.nodup_singleton k, ?_⟩
    intro a ha hb
    rw [List.mem_singleton] at hb
    subst hb
    exact hc (List.elem_iff.mpr ha)

/-- The group keys never repeat. -/
lemma nodup_groupKeys (cart : List CartItem) : (groupKeys cart).Nodup := by
  unfold groupKeys
  have haux : ∀ (l : List CartItem) (acc : List String), acc.Nodup →
      (l.foldl (fun a it => insKey a it.farmer_id) acc).Nodup := by
    intro l
    induction l with
    | nil => intro acc h; exact h
    | cons x xs ih =>
        intro acc h
        rw [List.foldl_cons]
        exact ih _ (nodup_insKey h _)
  exact haux cart [] List.nodup_nil

/-- Appending a line of another farmer leaves a spec group unchanged. -/
lemma specGroup_append_ne (cart : List CartItem) (x : CartItem) (k : String)
    (hne : x.farmer_id ≠ k) : specGroup (cart ++ [x]) k = specGroup cart k := by
  have hpx : (x.farmer_id == k) = false := by simp [hne]
  simp only [specGroup]
  have h1 : List.filter (fun it => it.farmer_id == k) [x] = [] := by
    simp [List.filter, hpx]
  have h2 : List.find? (fun it => it.farmer_id == k) [x] = none := by
    simp [List.find?, hpx]
  rw [List.filter_append, h1, List.append_nil, List.find?_append, h2, Option.or_none]

/-- Appending a line of a farmer already present extends exactly the items
and total of the group of that farmer. -/
lemma specGroup_append_eq (cart : List CartItem) (x : CartItem)
    (hmem : ∃ it ∈ cart, it.farmer_id = x.farmer_id) :
    specGroup (cart ++ [x]) x.farmer_id
      = { specGroup cart x.farmer_id with
          items := (specGroup cart x.farmer_id).items ++ [toInsertItem x],
          total := (specGroup cart x.farmer_id).total
                     + x.price_per_unit * (x.orderQuantity : Rat) } := by
  have h1 : List.filter (fun it => it.farmer_id == x.farmer_id) [x] = [x] := by
    simp [List.filter]
  rcases hmem with ⟨it0, hit0, he0⟩
  have hfind : (List.find? (fun it => it.farmer_id == x.farmer_id) cart).isSome = true := by
    rw [List.find?_isSome]
    exact ⟨it0, hit0, by simp [he0]⟩
  rcases ho : List.find? (fun it => it.farmer_id == x.farmer_id) cart with _ | itf
  · rw [ho] at hfind; simp at hfind
  · simp only [specGroup]
    rw [List.filter_append, h1, List.find?_append, ho]
    simp only [Option.or]
    simp only [List.map_append, List.sum_append]
    simp [toInsertItem]

/-- Appending a line of a farmer not yet present makes exactly the fresh
group the grouping reduce would create. -/
lemma specGroup_append_fresh (cart : List CartItem) (x : CartItem)
    (hmem : ¬∃ it ∈ cart, it.farmer_id = x.farmer_id) :
    specGroup (cart ++ [x]) x.farmer_id
      = { farmer_id := x.farmer_id, farmer_code := x.farmer_code.getD "",
          items := [toInsertItem x],
          total := 0 + x.price_per_unit * (x.orderQuantity : Rat) } := by
  have hnone : List.find? (fun it => it.farmer_id == x.farmer_id) cart = none := by
    rw [List.find?_eq_none]
    intro it hit
    simp only [beq_iff_eq]
    exact fun he => hmem ⟨it, hit, he⟩
  have hfilter : List.filter (fun it => it.farmer_id == x.farmer_id) cart = [] := by
    rw [List.filter_eq_nil_iff]
    intro it hit
    simp only [beq_iff_eq]
    exact fun he => hmem ⟨it, hit, he⟩
  have h1 : List.filter (fun it => it.farmer_id == x.farmer_id) [x] = [x] := by
    simp [List.filter]
  simp only [specGroup]
  rw [List.filter_append, hfilter, h1, List.find?_append, hnone]
  simp [Option.or, toInsertItem]

/-- The farmer ids of the spec groups are the group keys. -/
lemma map_farmerId_specGroups (cart : List CartItem) :
    (specGroups cart).map FarmerGroup.farmer_id = groupKeys cart := by
  unfold specGroups
  rw [List.map_map]
  have h : (FarmerGroup.farmer_id ∘ specGroup cart) = id := by
    funext k; rfl
  rw [h, List.map_id]

/-- The grouping reduce of handleCheckout computes exactly the spec
partition: one group per distinct farmer in first-occurrence order, items
in cart order with subtotal equal to price times quantity, total the sum
of the subtotals of the farmer, code from the first line of the farmer. -/
lemma ordersByFarmer_eq_specGroups (cart : List CartItem) :
    ordersByFarmer cart = specGroups cart := by
  induction cart using List.reverseRecOn with
  | nil => rfl
  | append_singleton cart x ih =>
      have hof : ordersByFarmer (cart ++ [x]) = addToGroups (ordersByFarmer cart) x := by
        simp [ordersByFarmer, List.foldl_append]
      have hkeys : groupKeys (cart ++ [x]) = insKey (groupKeys cart) x.farmer_id := by
        simp [groupKeys, List.foldl_append]
      rw [hof, ih]
      by_cases hmem : x.farmer_id ∈ groupKeys cart
      · have hx : ∃ it ∈ cart, it.farmer_id = x.farmer_id := mem_groupKeys.mp hmem
        have hcontains : (groupKeys cart).contains x.farmer_id = true :=
          List.elem_iff.mpr hmem
        have hany : (specGroups cart).any (fun g => g.farmer_id == x.farmer_id) = true := by
          rw [List.any_eq_true]
          refine ⟨specGroup cart x.farmer_id, ?_, by simp [specGroup]⟩
          unfold specGroups
          exact List.mem_map_of_mem _ hmem
        have hrhs : specGroups (cart ++ [x])
            = (groupKeys cart).map (specGroup (cart ++ [x])) := by
          unfold specGroups
          rw [hkeys]
          unfold insKey
          rw [if_pos hcontains]
        rw [hrhs]
        simp only [addToGroups]
        rw [if_pos hany]
        unfold specGroups
        rw [List.map_map]
        apply List.map_congr_left
        intro k hk
        simp only [Function.comp_apply]
        by_cases hkx : k = x.farmer_id
        · subst hkx
          have hguard : ((specGroup cart x.farmer_id).farmer_id == x.farmer_id) = true := by
            simp [specGroup]
          rw [if_pos hguard]
          exact (specGroup_append_eq cart x hx).symm
        · have hguard : ((specGroup cart k).farmer_id == x.farmer_id) = false := by
            have hfid : (specGroup cart k).farmer_id = k := rfl
            rw [hfid]
            simp [hkx]
          rw [if_neg (by rw [hguard]; exact Bool.false_ne_true)]
          exact (specGroup_append_ne cart x k (fun he => hkx he.symm)).symm
      · have hx : ¬∃ it ∈ cart, it.farmer_id = x.farmer_id :=
          fun hex => hmem (mem_groupKeys.mpr hex)
        have hcontains : (groupKeys cart).contains x.farmer_id = false := by
          cases hc : (groupKeys cart).contains x.farmer_id
          · rfl
          · exact absurd (List.elem_iff.mp hc) hmem
        have hany : (specGroups cart).any (fun g => g.farmer_id == x.farmer_id) = false := by
          cases ha : (specGroups cart).any (fun g => g.farmer_id == x.farmer_id)
          · rfl
          · rcases List.any_eq_true.mp ha with ⟨g, hg, hgx⟩
            have hin : g.farmer_id ∈ (specGroups cart).map FarmerGroup.farmer_id :=
              List.mem_map_of_mem _ hg
            rw [map_farmerId_specGroups] at hin
            rw [beq_iff_eq] at hgx
            rw [hgx] at hin
            exact absurd hin hmem
        have hrhs : specGroups (cart ++ [x])
            = (groupKeys cart).map (specGroup (cart ++ [x]))
                ++ [specGroup (cart ++ [x]) x.farmer_id] := by
          unfold specGroups
          rw [hkeys]
          unfold insKey
          rw [if_neg (by rw [hcontains]; exact Bool.false_ne_true)]
          rw [List.map_append]
          rfl
        rw [hrhs]
        simp only [addToGroups]
        rw [if_neg (by rw [hany]; exact Bool.false_ne_true)]
        unfold specGroups
        congr 1
        · apply List.map_congr_left
          intro k hk
          have hkx : x.farmer_id ≠ k := by
            intro he; rw [he] at hmem; exact hmem hk
          exact (specGroup_append_ne cart x k hkx).symm
        · rw [specGroup_append_fresh cart x hx]

/-- Equation of createOrder on the success path. -/
lemma createOrder_ok_eq (uid : String) (od : CreateOrderData) (s : DBState) :
    createOrder (some uid) od false false s
      = ({ s with
           orders := s.orders ++ [mkOrderRow uid od s],
           order_items := s.order_items ++ mkItemRows od (freshOrderId s) },
         Except.ok (mkOrderRow uid od s, mkItemRows od (freshOrderId s))) := rfl

/-- Equation of createOrder when the order insert fails. -/
lemma createOrder_fail1_eq (uid : String) (od : CreateOrderData) (f2 : Bool)
    (s : DBState) :
    createOrder (some uid) od true f2 s = (s, Except.error "order insert failed") := by
  cases f2 <;> rfl

/-- Equation of createOrder when the item insert fails. -/
lemma createOrder_fail2_eq (uid : String) (od : CreateOrderData) (s : DBState) :
    createOrder (some uid) od false true s
      = ({ s with orders := s.orders ++ [mkOrderRow uid od s] },
         Except.error "order items insert failed") := rfl

/-- Unfolding of the checkout loop on the success path with no fault
injection. -/
lemma runGroups_cons_ok (P : String) (g : FarmerGroup) (gs : List FarmerGroup)
    (s : DBState) :
    runGroups (some P) (g :: gs) [] s
      = ((runGroups (some P) gs [] (commitGroupState P g s)).1,
         (mkOrderRow P (groupToOrderData g) s,
           mkItemRows (groupToOrderData g) (freshOrderId s))
           :: (runGroups (some P) gs [] (commitGroupState P g s)).2.1,
         (runGroups (some P) gs [] (commitGroupState P g s)).2.2) := rfl

/-- The observation of the rows built for a group is the observation of
the group. -/
lemma orderView_mk (P : String) (g : FarmerGroup) (s : DBState) :
    orderView (mkOrderRow P (groupToOrderData g) s,
               mkItemRows (groupToOrderData g) (freshOrderId s))
      = groupView P g := by
  unfold orderView groupView mkOrderRow mkItemRows groupToOrderData
  simp only [List.map_map]
  have hcomp : ((fun it : OrderItemRow =>
        (it.fish_listing_id, it.quantity, it.unit_price, it.subtotal)) ∘
      fun p : Nat × OrderInsertItem =>
        ({ id := freshOrderId s ++ "item" ++ toString p.1, order_id := freshOrderId s,
           fish_listing_id := p.2.fish_listing_id, quantity := p.2.quantity,
           unit_price := p.2.unit_price, subtotal := p.2.subtotal } : OrderItemRow))
      = ((fun it : OrderInsertItem =>
            (it.fish_listing_id, it.quantity, it.unit_price, it.subtotal)) ∘ Prod.snd) := rfl
  rw [hcomp, ← List.map_map, List.enum_map_snd]

/-- With no fault injection the checkout loop commits every group: no
error, one result per group observing exactly the group, and the orders
and order_items tables extended by exactly the created rows. -/
lemma runGroups_ok (P : String) (groups : List FarmerGroup) : ∀ (s : DBState),
    (runGroups (some P) groups [] s).2.2 = none
    ∧ ((runGroups (some P) groups [] s).2.1).map orderView = groups.map (groupView P)
    ∧ ((runGroups (some P) groups [] s).1).orders
        = s.orders ++ ((runGroups (some P) groups [] s).2.1).map Prod.fst
    ∧ ((runGroups (some P) groups [] s).1).order_items
        = s.order_items ++ (((runGroups (some P) groups [] s).2.1).map Prod.snd).flatten := by
  induction groups with
  | nil => intro s; exact ⟨rfl, rfl, by simp [runGroups], by simp [runGroups]⟩
  | cons g gs ih =>
      intro s
      rw [runGroups_cons_ok]
      rcases ih (commitGroupState P g s) with ⟨h1, h2, h3, h4⟩
      refine ⟨h1, ?_, ?_, ?_⟩
      · simp only [List.map_cons, h2, orderView_mk]
      · simp only [List.map_cons]
        rw [h3]
        simp [commitGroupState, List.append_assoc]
      · simp only [List.map_cons, List.flatten_cons]
        rw [h4]
        simp [commitGroupState, List.append_assoc]

/-- With arbitrary fault injection the checkout loop processes a prefix of
the groups: the completed results observe exactly the first k groups, k is
everything only when no error occurred, and the orders table only ever
grows. -/
lemma runGroups_prefix (P : String) (groups : List FarmerGroup) :
    ∀ (faults : List (Bool × Bool)) (s : DBState),
    ∃ k, k ≤ groups.length
      ∧ ((runGroups (some P) groups faults s).2.1).map orderView
          = (groups.take k).map (groupView P)
      ∧ ((runGroups (some P) groups faults s).2.2 = none → k = groups.length)
      ∧ ∃ newOrders,
          ((runGroups (some P) groups faults s).1).orders = s.orders ++ newOrders := by
  induction groups with
  | nil =>
      intro faults s
      exact ⟨0, Nat.le_refl 0, rfl, fun _ => rfl, [], by simp [runGroups]⟩
  | cons g gs ih =>
      intro faults s
      rcases hfl : faults.headD (false, false) with ⟨f1, f2⟩
      simp only [runGroups, hfl]
      cases f1
      · cases f2
        · rw [createOrder_ok_eq]
          rcases ih faults.tail ({ (s : DBState) with
              orders := s.orders ++ [mkOrderRow P (groupToOrderData g) s],
              order_items := s.order_items
                               ++ mkItemRows (groupToOrderData g) (freshOrderId s) })
            with ⟨k, hk, hview, himp, tail, htail⟩
          refine ⟨k + 1, Nat.succ_le_succ hk, ?_, ?_, ?_⟩
          · simp only [List.take_succ_cons, List.map_cons, hview, orderView_mk]
          · intro hnone
            rw [List.length_cons, himp hnone]
          · refine ⟨[mkOrderRow P (groupToOrderData g) s] ++ tail, ?_⟩
            rw [htail]
            simp [List.append_assoc]
        · rw [createOrder_fail2_eq]
          refine ⟨0, Nat.zero_le _, rfl, ?_, [mkOrderRow P (groupToOrderData g) s], rfl⟩
          intro hnone
          exact absurd hnone (by simp)
      · rw [createOrder_fail1_eq]
        refine ⟨0, Nat.zero_le _, rfl, ?_, [], by simp⟩
        intro hnone
        exact absurd hnone (by simp)

/-- C1: checkout partitions the cart lines by farmer: the grouping reduce
equals the spec partition (one group per distinct farmer in first
occurrence order, one item per line with subtotal = unit price times
quantity, total the sum over the lines of the farmer); with no failure the
loop creates exactly one pending order per group carrying the group total
and items; and on the concrete example cart the orders are farmer1 with
250 over 2 items and farmer2 with 60 over 1 item. -/
theorem checkout_groups_cart_by_farmer :
    (∀ cart : List CartItem, ordersByFarmer cart = specGroups cart)
    ∧ (∀ cart : List CartItem, ((ordersByFarmer cart).map FarmerGroup.farmer_id).Nodup)
    ∧ (∀ (cart : List CartItem) (k : String),
        (k ∈ (ordersByFarmer cart).map FarmerGroup.farmer_id)
          ↔ ∃ it ∈ cart, it.farmer_id = k)
    ∧ (∀ (P : String) (cart : List CartItem) (s : DBState),
        (runGroups (some P) (ordersByFarmer cart) [] s).2.2 = none
        ∧ ((runGroups (some P) (ordersByFarmer cart) [] s).2.1).map orderView
            = (ordersByFarmer cart).map (groupView P)
        ∧ ((runGroups (some P) (ordersByFarmer cart) [] s).1).orders
            = s.orders
                ++ ((runGroups (some P) (ordersByFarmer cart) [] s).2.1).map Prod.fst)
    ∧ (((handleCheckout (some "cust1") exCart [] emptyDB).1).orders.map
          (fun o => (o.customer_id, o.farmer_id, o.total_amount, o.status))
        = [("cust1", "farmer1", (250 : Rat), "pending"),
           ("cust1", "farmer2", (60 : Rat), "pending")]
       ∧ ((handleCheckout (some "cust1") exCart [] emptyDB).1).order_items.map
          (fun it => (it.order_id, it.fish_listing_id, it.quantity, it.unit_price,
                      it.subtotal))
        = [("order0", "listingA", (2 : Int), (100 : Rat), (200 : Rat)),
           ("order0", "listingB", (1 : Int), (50 : Rat), (50 : Rat)),
           ("order1", "listingC", (3 : Int), (20 : Rat), (60 : Rat))]
       ∧ (handleCheckout (some "cust1") exCart [] emptyDB).2
           = CheckoutReport.success 310) := by
  refine ⟨ordersByFarmer_eq_specGroups, ?_, ?_, ?_, ?_, ?_, ?_⟩
  · intro cart
    rw [ordersByFarmer_eq_specGroups, map_farmerId_specGroups]
    exact nodup_groupKeys cart
  · intro cart k
    rw [ordersByFarmer_eq_specGroups, map_farmerId_specGroups]
    exact mem_groupKeys
  · intro P cart s
    rcases runGroups_ok P (ordersByFarmer cart) s with ⟨h1, h2, h3, _⟩
    exact ⟨h1, h2, h3⟩
  · simp [handleCheckout, runGroups, createOrder, ordersByFarmer, addToGroups,
      toInsertItem, groupToOrderData, exCart, emptyDB, freshOrderId]
    norm_num
  · simp [handleCheckout, runGroups, createOrder, ordersByFarmer, addToGroups,
      toInsertItem, groupToOrderData, exCart, emptyDB, freshOrderId,
      List.enum, List.enumFrom]
    norm_num
    exact ⟨rfl, rfl⟩
  · simp [handleCheckout, runGroups, createOrder, ordersByFarmer, addToGroups,
      toInsertItem, groupToOrderData, getTotalAmount, exCart, emptyDB, freshOrderId]
    norm_num

/-- C4 amended: the store-level check on order_items enforces
subtotal > 0 (together with quantity > 0 and unit_price > 0); the equality
subtotal = unit_price times quantity holds for every item the checkout
computes, but it is computed by the caller, not enforced by the store. -/
theorem order_items_subtotal_amended :
    (∀ it : OrderItemRow, order_items_check it = true → 0 < it.subtotal)
    ∧ ∀ cart : List CartItem, ∀ g ∈ ordersByFarmer cart, ∀ it ∈ g.items,
        it.subtotal = it.unit_price * (it.quantity : Rat) := by
  constructor
  · intro it h
    unfold order_items_check at h
    simp only [Bool.and_eq_true, decide_eq_true_eq] at h
    exact h.2
  · intro cart g hg it hit
    rw [ordersByFarmer_eq_specGroups] at hg
    unfold specGroups at hg
    rcases List.mem_map.mp hg with ⟨k, hk, rfl⟩
    simp only [specGroup] at hit
    rcases List.mem_map.mp hit with ⟨line, hline, rfl⟩
    rfl

/-- Witness for order_items_subtotal_amended. -/
theorem order_items_subtotal_amended_witness :
    order_items_check exBadItem = true ∧ 0 < exBadItem.subtotal :=
  ⟨rfl, order_items_subtotal_amended.1 exBadItem rfl⟩

/-- C3 amended: when a farmer-group write fails, the already committed
groups stay committed (the orders table only grows), the loop stops after
a prefix of the groups, and an error is surfaced — but it is reported
through the one generic failure alert, which names neither the committed
groups nor the failure detail. -/
theorem checkout_partial_failure_amended (P : String) (cart : List CartItem)
    (faults : List (Bool × Bool)) (s : DBState) :
    (∃ newOrders, ((handleCheckout (some P) cart faults s).1).orders
        = s.orders ++ newOrders)
    ∧ (∃ k, k ≤ (ordersByFarmer cart).length
        ∧ ((runGroups (some P) (ordersByFarmer cart) faults s).2.1).map orderView
            = ((ordersByFarmer cart).take k).map (groupView P)
        ∧ ((runGroups (some P) (ordersByFarmer cart) faults s).2.2 = none
            → k = (ordersByFarmer cart).length))
    ∧ ((runGroups (some P) (ordersByFarmer cart) faults s).2.2 = none
        → (handleCheckout (some P) cart faults s).2
            = CheckoutReport.success (getTotalAmount cart))
    ∧ ∀ e, (runGroups (some P) (ordersByFarmer cart) faults s).2.2 = some e
        → (handleCheckout (some P) cart faults s).2 = CheckoutReport.failure := by
  rcases runGroups_prefix P (ordersByFarmer cart) faults s
    with ⟨k, hk, hview, himp, tail, htail⟩
  have hhc1 : (handleCheckout (some P) cart faults s).1
      = (runGroups (some P) (ordersByFarmer cart) faults s).1 := by
    simp only [handleCheckout]
    rcases (runGroups (some P) (ordersByFarmer cart) faults s).2.2 with _ | e <;> rfl
  refine ⟨⟨tail, by rw [hhc1]; exact htail⟩, ⟨k, hk, hview, himp⟩, ?_, ?_⟩
  · intro hnone
    simp only [handleCheckout]
    rw [hnone]
  · intro e he
    simp only [handleCheckout]
    rw [he]

/-- Witness for checkout_partial_failure_amended, at the run in which the
second farmer group fails after the first committed. -/
theorem checkout_partial_failure_amended_witness :
    (∃ newOrders,
        ((handleCheckout (some "cust1") exCart [(false, false), (true, false)]
            emptyDB).1).orders = emptyDB.orders ++ newOrders)
    ∧ (∃ k, k ≤ (ordersByFarmer exCart).length
        ∧ ((runGroups (some "cust1") (ordersByFarmer exCart)
              [(false, false), (true, false)] emptyDB).2.1).map orderView
            = ((ordersByFarmer exCart).take k).map (groupView "cust1")
        ∧ ((runGroups (some "cust1") (ordersByFarmer exCart)
              [(false, false), (true, false)] emptyDB).2.2 = none
            → k = (ordersByFarmer exCart).length))
    ∧ ((runGroups (some "cust1") (ordersByFarmer exCart)
          [(false, false), (true, false)] emptyDB).2.2 = none
        → (handleCheckout (some "cust1") exCart [(false, false), (true, false)]
            emptyDB).2 = CheckoutReport.success (getTotalAmount exCart))
    ∧ ∀ e, (runGroups (some "cust1") (ordersByFarmer exCart)
          [(false, false), (true, false)] emptyDB).2.2 = some e
        → (handleCheckout (some "cust1") exCart [(false, false), (true, false)]
            emptyDB).2 = CheckoutReport.failure :=
  checkout_partial_failure_amended "cust1" exCart [(false, false), (true, false)] emptyDB

/-- C5: an inactive listing owned by farmer F is returned by the owner
feed of F, while for every other principal P the RLS predicate rejects it,
the catalog omits it, and the owner feed of P completes without error and
omits it. -/
theorem inactive_listing_visibility (s : DBState) (F P : String)
    (l : FishListingRow) (hl : l ∈ s.fish_listings) (hinact : l.is_active = false)
    (hown : l.farmer_id = F) (hne : P ≠ F) :
    (∃ lst, getFarmerListings (some F) s = Except.ok lst ∧ l ∈ lst)
    ∧ canSelectListing F l = true
    ∧ canSelectListing P l = false
    ∧ (∀ entry ∈ getFishListings P s, entry.listing ≠ l)
    ∧ (∃ lst, getFarmerListings (some P) s = Except.ok lst ∧ l ∉ lst) := by
  have hselF : canSelectListing F l = true := by
    simp [canSelectListing, hinact, hown]
  have hselP : canSelectListing P l = false := by
    simp only [canSelectListing, hinact, hown, Bool.false_or]
    simp only [beq_iff_eq, beq_eq_false_iff_ne, ne_eq]
    exact fun he => hne he.symm
  refine ⟨⟨_, rfl, ?_⟩, hselF, hselP, ?_, ⟨_, rfl, ?_⟩⟩
  · rw [List.mem_filter]
    refine ⟨hl, ?_⟩
    rw [hselF]
    simp [hown]
  · intro entry hentry heq
    unfold getFishListings at hentry
    rcases List.mem_map.mp hentry with ⟨l2, hl2, rfl⟩
    simp only at heq
    subst heq
    rcases List.mem_filter.mp hl2 with ⟨_, hact⟩
    rw [hinact] at hact
    cases hact
  · intro hmem
    rcases List.mem_filter.mp hmem with ⟨_, h2⟩
    rw [Bool.and_eq_true, hselP] at h2
    exact absurd h2.1 (by decide)

/-- Witness for inactive_listing_visibility at a concrete store. -/
theorem inactive_listing_visibility_witness :
    (exInactiveListing ∈ exDBInactive.fish_listings
      ∧ exInactiveListing.is_active = false
      ∧ exInactiveListing.farmer_id = "farmer1"
      ∧ ("cust9" : String) ≠ "farmer1")
    ∧ ((∃ lst, getFarmerListings (some "farmer1") exDBInactive = Except.ok lst
          ∧ exInactiveListing ∈ lst)
       ∧ canSelectListing "farmer1" exInactiveListing = true
       ∧ canSelectListing "cust9" exInactiveListing = false
       ∧ (∀ entry ∈ getFishListings "cust9" exDBInactive,
            entry.listing ≠ exInactiveListing)
       ∧ (∃ lst, getFarmerListings (some "cust9") exDBInactive = Except.ok lst
            ∧ exInactiveListing ∉ lst)) :=
  ⟨⟨by decide, rfl, rfl, by decide⟩,
   inactive_listing_visibility exDBInactive "farmer1" "cust9" exInactiveListing
     (by decide) rfl rfl (by decide)⟩

/-- Every decimal digit of a number below ten renders as a digit
character. -/
lemma isDigit_digitChar (n : Nat) (h : n < 10) : isDigitChar (digitChar n) = true := by
  interval_cases n <;> decide

/-- Every letter index below twentysix renders as an uppercase letter. -/
lemma isUpper_letterChar (n : Nat) (h : n < 26) : isUpperChar (letterChar n) = true := by
  interval_cases n <;> decide

/-- The characters of a generated candidate code. -/
lemma mkCode_data (r : FarmerRand) :
    (mkCode r).data
      = ['F', 'S', 'H', digitChar (r.d / 100 % 10), digitChar (r.d / 10 % 10),
         digitChar (r.d % 10), letterChar r.a, letterChar r.b, letterChar r.c] := by
  unfold mkCode lpad3
  rw [String.data_append, String.data_append]
  rfl

/-- Every candidate code built from valid letter draws matches the
generator format. -/
lemma codeFormat_mkCode (r : FarmerRand) (ha : r.a < 26) (hb : r.b < 26)
    (hc : r.c < 26) : codeFormat (mkCode r) = true := by
  have h1 : r.d / 100 % 10 < 10 := Nat.mod_lt _ (by norm_num)
  have h2 : r.d / 10 % 10 < 10 := Nat.mod_lt _ (by norm_num)
  have h3 : r.d % 10 < 10 := Nat.mod_lt _ (by norm_num)
  unfold codeFormat
  rw [mkCode_data]
  simp [isDigit_digitChar _ h1, isDigit_digitChar _ h2, isDigit_digitChar _ h3,
    isUpper_letterChar _ ha, isUpper_letterChar _ hb, isUpper_letterChar _ hc]

/-- A candidate code is never the empty string. -/
lemma mkCode_ne_empty (r : FarmerRand) : mkCode r ≠ "" := by
  intro h
  have hd : (mkCode r).data = [] := by rw [h]
  rw [mkCode_data] at hd
  exact absurd hd (by simp)

/-- The retry loop of generate_farmer_code: as soon as the random stream
holds a draw whose code is not taken, the loop returns a code in the
generator format that is fresh and nonempty. -/
lemma generate_farmer_code_ok :
    ∀ (rands : List FarmerRand) (existing : List String),
    (∀ r ∈ rands, r.a < 26 ∧ r.b < 26 ∧ r.c < 26) →
    (∃ r ∈ rands, existing.contains (mkCode r) = false) →
    ∃ c, generate_farmer_code rands existing = some c
      ∧ codeFormat c = true ∧ existing.contains c = false ∧ c ≠ "" := by
  intro rands
  induction rands with
  | nil =>
      intro existing hv hf
      rcases hf with ⟨r, hr, _⟩
      exact absurd hr (List.not_mem_nil r)
  | cons r rs ih =>
      intro existing hv hf
      by_cases hcol : existing.contains (mkCode r) = true
      · have hgen : generate_farmer_code (r :: rs) existing
            = generate_farmer_code rs existing := by
          simp only [generate_farmer_code]
          rw [if_pos hcol]
        rw [hgen]
        apply ih
        · intro r2 hr2
          exact hv r2 (List.mem_cons_of_mem _ hr2)
        · rcases hf with ⟨r0, hr0, hfr0⟩
          rcases List.mem_cons.mp hr0 with rfl | h2
          · rw [hcol] at hfr0
            exact absurd hfr0 (by decide)
          · exact ⟨r0, h2, hfr0⟩
      · have hcf : existing.contains (mkCode r) = false := by
          cases hcc : existing.contains (mkCode r)
          · rfl
          · exact absurd hcc hcol
        have hgen : generate_farmer_code (r :: rs) existing = some (mkCode r) := by
          simp only [generate_farmer_code]
          rw [if_neg hcol]
        rcases hv r (List.mem_cons_self r rs) with ⟨ha, hb, hc⟩
        exact ⟨mkCode r, hgen, codeFormat_mkCode r ha hb hc, hcf, mkCode_ne_empty r⟩

/-- C8: a farmer row arriving with no unique_code (modelled as the empty
string, covering NULL and empty) is stored with a generated code matching
the format FSH + three digits + three uppercase letters, not colliding
with any existing code, and nonempty — provided the random stream
eventually yields a fresh draw (the retry loop cannot terminate
otherwise). -/
theorem farmer_code_autogenerated (rands : List FarmerRand) (existing : List String)
    (f : FarmerRow) (hf : f.unique_code = "")
    (hv : ∀ r ∈ rands, r.d < 1000 ∧ r.a < 26 ∧ r.b < 26 ∧ r.c < 26)
    (hfresh : ∃ r ∈ rands, existing.contains (mkCode r) = false) :
    ∃ f2, set_farmer_code rands existing f = some f2
      ∧ codeFormat f2.unique_code = true
      ∧ existing.contains f2.unique_code = false
      ∧ f2.unique_code ≠ "" := by
  have hv2 : ∀ r ∈ rands, r.a < 26 ∧ r.b < 26 ∧ r.c < 26 := by
    intro r hr
    rcases hv r hr with ⟨_, h1, h2, h3⟩
    exact ⟨h1, h2, h3⟩
  rcases generate_farmer_code_ok rands existing hv2 hfresh
    with ⟨c, hgen, hfmt, hcon, hnemp⟩
  refine ⟨{ f with unique_code := c }, ?_, hfmt, hcon, hnemp⟩
  unfold set_farmer_code
  rw [if_pos hf, hgen]
  rfl

/-- Witness for farmer_code_autogenerated at a concrete row and stream. -/
theorem farmer_code_autogenerated_witness :
    (exFarmerNoCode.unique_code = ""
      ∧ (∀ r ∈ [exRand], r.d < 1000 ∧ r.a < 26 ∧ r.b < 26 ∧ r.c < 26)
      ∧ (∃ r ∈ [exRand], (["FSH999ZZZ"] : List String).contains (mkCode r) = false))
    ∧ ∃ f2, set_farmer_code [exRand] ["FSH999ZZZ"] exFarmerNoCode = some f2
      ∧ codeFormat f2.unique_code = true
      ∧ (["FSH999ZZZ"] : List String).contains f2.unique_code = false
      ∧ f2.unique_code ≠ "" :=
  ⟨⟨rfl, by decide, by decide⟩,
   farmer_code_autogenerated [exRand] ["FSH999ZZZ"] exFarmerNoCode rfl
     (by decide) (by decide)⟩
